import Mathlib

/-!
Verification of the service-worker caching core and the data-processing
worker of the trading-platform repository.  The service worker ("part_000")
is embedded as pure Lean functions over an explicit cache state; network
fetches are modelled by an `Option Response` outcome (`none` models a fetch
whose promise rejects, `some r` a fetch that resolves with response `r`).
The data-processing worker ("src/workers/dataProcessor.js") is embedded
with exact rational arithmetic; every concrete number appearing in the
claims is exactly representable, so the model is faithful at those inputs.
-/

namespace SW

/-! ### String helpers

JavaScript string operations (`includes`, `startsWith`, `endsWith`, the
static-asset regular expression) are modelled on `List Char` so that all
predicates are decidable and kernel-evaluable. -/

/-- Model of JavaScript `s.startsWith(pat)`. -/
def strStarts (s pat : String) : Bool :=
  pat.toList.isPrefixOf s.toList

/-- Model of JavaScript `s.endsWith(pat)` (used for the `\.(ext)$` regex test). -/
def strEnds (s pat : String) : Bool :=
  pat.toList.isSuffixOf s.toList

/-- Does `pat` occur as a contiguous sublist of `l`? -/
def hasSubList (pat : List Char) : List Char → Bool
  | [] => pat.isEmpty
  | c :: rest => pat.isPrefixOf (c :: rest) || hasSubList pat rest

/-- Model of JavaScript `s.includes(pat)`. -/
def strIncludes (s pat : String) : Bool :=
  hasSubList pat.toList s.toList

/-! ### HTTP model -/

/-- Snapshot of an HTTP response: status, status text, body and an optional
content type header, as constructed by the service worker. -/
structure Response where
  status : Nat
  statusText : String := ""
  body : String := ""
  contentType : Option String := none
  deriving Repr, DecidableEq

/-- JavaScript `response.ok`: true exactly when the status is in the 2xx range. -/
def Response.ok (r : Response) : Bool :=
  decide (200 ≤ r.status ∧ r.status < 300)

/-- An intercepted request: method, URL pathname, and the value of the
`accept` header (`none` when the header is absent, in which case
JavaScript `headers.get(accept)` returns `null`). -/
structure Request where
  method : String
  pathname : String
  accept : Option String := none
  deriving Repr, DecidableEq

/-- Request identity used as a cache key (only GET requests are handled, so
the pathname identifies the request). -/
def reqKey (req : Request) : String := req.pathname

/-! ### Configuration constants, from the top of the service worker -/

def STATIC_CACHE : String := "static-v1"
def API_CACHE : String := "api-v1"
def DYNAMIC_CACHE : String := "dynamic-v1"

/-- `STATIC_ASSETS`: the install manifest. -/
def STATIC_ASSETS : List String :=
  ["/", "/index.html", "/static/js/bundle.js", "/static/css/main.css",
   "/manifest.json", "/favicon.ico"]

/-- `CRITICAL_APIS`: the critical-API allow-list. -/
def CRITICAL_APIS : List String :=
  ["/api/stocks/market-status", "/api/stocks/market-overview",
   "/api/stocks/top-gainers", "/api/stocks/top-losers",
   "/api/stocks/market-index"]

/-- Extensions matched by the static-asset regular expression
`/\.(js|css|png|jpg|jpeg|gif|svg|ico|woff|woff2|ttf|eot)$/`. -/
def STATIC_EXTENSIONS : List String :=
  ["js", "css", "png", "jpg", "jpeg", "gif", "svg", "ico",
   "woff", "woff2", "ttf", "eot"]

/-! ### Policy classifier -/

/-- `isStaticAsset`: the pathname matches the static-asset extension regex. -/
def isStaticAsset (req : Request) : Bool :=
  STATIC_EXTENSIONS.any (fun ext => strEnds req.pathname ("." ++ ext))

/-- `isAPIRequest`: the pathname starts with the API namespace. -/
def isAPIRequest (req : Request) : Bool :=
  strStarts req.pathname "/api/"

/-- `isHTMLRequest`: calls `.includes(..text/html..)` on
the accept-header lookup.  When the header is absent `get` returns
`null` and the call throws a `TypeError`; the fallible call is embedded as
`Except`. -/
def isHTMLRequest (req : Request) : Except String Bool :=
  match req.accept with
  | none => .error "TypeError: cannot read includes of null"
  | some a => .ok (strIncludes a "text/html")

/-- `isCriticalAPI`: some allow-list entry is a path prefix of the pathname. -/
def isCriticalAPI (req : Request) : Bool :=
  CRITICAL_APIS.any (fun api => strStarts req.pathname api)

/-- The three caching strategies. -/
inductive Strategy where
  | cacheFirstS
  | networkFirstS
  | staleWhileRevalidateS
  deriving Repr, DecidableEq

/-- Outcome of the fetch event listener: pass the request through untouched
(non-GET), respond with a chosen strategy, or throw while classifying. -/
inductive FetchDecision where
  | passThrough
  | respond (s : Strategy)
  | classifierThrew (e : String)
  deriving Repr, DecidableEq

/-- Classification chain of the fetch event listener (first match wins). -/
def onFetch (req : Request) : FetchDecision :=
  if req.method ≠ "GET" then .passThrough
  else if isStaticAsset req then .respond .cacheFirstS
  else if isAPIRequest req then .respond .networkFirstS
  else
    match isHTMLRequest req with
    | .error e => .classifierThrew e
    | .ok true => .respond .staleWhileRevalidateS
    | .ok false => .respond .networkFirstS

/-! ### Cache tier store -/

/-- A cache tier is an association list from request identity to response
snapshot.  `tierPut` models `cache.put`, which overwrites any prior entry
for the same identity; `tierGet` models `cache.match`. -/
abbrev Tier := List (String × Response)

/-- `cache.put(request, response)`: store, overwriting any prior snapshot. -/
def tierPut (t : Tier) (k : String) (r : Response) : Tier :=
  (k, r) :: t.filter (fun p => p.1 ≠ k)

/-- `cache.match(request)` against one tier. -/
def tierGet (t : Tier) (k : String) : Option Response :=
  (t.find? (fun p => p.1 = k)).map Prod.snd

/-- The three tiers the strategies touch. -/
structure CacheStore where
  staticTier : Tier
  apiTier : Tier
  dynamicTier : Tier
  deriving DecidableEq

/-- `caches.match(request)`: search every tier for a snapshot. -/
def cachesMatch (cs : CacheStore) (k : String) : Option Response :=
  (tierGet cs.staticTier k).orElse fun _ =>
    (tierGet cs.apiTier k).orElse fun _ => tierGet cs.dynamicTier k

/-- The empty cache store. -/
def emptyCaches : CacheStore := ⟨[], [], []⟩

/-! ### Synthesized offline responses -/

/-- The structured offline JSON 503 returned for critical APIs; its body is
the `JSON.stringify` of `\x7bsuccess:false, message:.., offline:true\x7d`. -/
def offlineJsonResponse : Response :=
  { status := 503
    body := "\x7b\"success\":false,\"message\":\"Offline - Data not available\",\"offline\":true\x7d"
    contentType := some "application/json" }

/-- The generic offline 503 response. -/
def genericOfflineResponse : Response :=
  { status := 503, statusText := "Service Unavailable"
    body := "Offline - Resource not available" }

/-! ### Strategies

Each strategy takes the network outcome `net` for the (at most one) fetch it
performs: `none` models the fetch promise rejecting, `some r` resolving with
`r`.  `fetchCount` records how many network fetches were issued. -/

/-- Result of running a strategy. -/
structure StrategyResult where
  response : Response
  caches : CacheStore
  fetchCount : Nat
  deriving DecidableEq

/-- `cacheFirst`: serve a snapshot from any tier if present; otherwise fetch
once, store a clone in the static tier when the response is 2xx, and return
it; if the fetch throws, return the generic 503 (the catch block). -/
def cacheFirst (net : Option Response) (req : Request) (cs : CacheStore) :
    StrategyResult :=
  match cachesMatch cs (reqKey req) with
  | some cached => ⟨cached, cs, 0⟩
  | none =>
    match net with
    | some r =>
      if r.ok then
        ⟨r, { cs with staticTier := tierPut cs.staticTier (reqKey req) r }, 1⟩
      else ⟨r, cs, 1⟩
    | none => ⟨genericOfflineResponse, cs, 1⟩

/-- `networkFirst`: fetch; when the response is 2xx store a clone in the API
tier; return whatever the fetch resolved with.  When the fetch throws, fall
back to any cached snapshot; failing that, return the structured offline
JSON for critical APIs and the generic 503 otherwise. -/
def networkFirst (net : Option Response) (req : Request) (cs : CacheStore) :
    StrategyResult :=
  match net with
  | some r =>
    if r.ok then
      ⟨r, { cs with apiTier := tierPut cs.apiTier (reqKey req) r }, 1⟩
    else ⟨r, cs, 1⟩
  | none =>
    match cachesMatch cs (reqKey req) with
    | some cached => ⟨cached, cs, 1⟩
    | none =>
      if isCriticalAPI req then ⟨offlineJsonResponse, cs, 1⟩
      else ⟨genericOfflineResponse, cs, 1⟩

/-- Result of `staleWhileRevalidate`; the promise handed to the caller can resolve to
`undefined` (modelled `none`) when there is no snapshot and the fetch fails. -/
structure SWRResult where
  response : Option Response
  caches : CacheStore
  deriving DecidableEq

/-- `staleWhileRevalidate`: read the dynamic tier; start a fetch whose 2xx
success updates the tier and whose rejection is caught, yielding the cached
value; return the cached snapshot when present, else the fetch outcome. -/
def staleWhileRevalidate (net : Option Response) (req : Request)
    (cs : CacheStore) : SWRResult :=
  let cached := tierGet cs.dynamicTier (reqKey req)
  let updated : CacheStore :=
    match net with
    | some r =>
      if r.ok then { cs with dynamicTier := tierPut cs.dynamicTier (reqKey req) r }
      else cs
    | none => cs
  let fetchOutcome : Option Response :=
    match net with
    | some r => some r
    | none => cached
  { response := match cached with
      | some c => some c
      | none => fetchOutcome
    caches := updated }

/-! ### Install -/

/-- `cache.addAll(urls)`: fetches every URL and stores the results in one
atomic batch operation; if any fetch fails the whole operation rejects and
nothing is stored (Cache API batch semantics).  `fetchOk u` tells whether
the fetch of `u` succeeds. -/
def cacheAddAll (fetchOk : String → Bool) (urls : List String) :
    Except String (List String) :=
  if urls.all fetchOk then .ok urls else .error "addAll rejected"

/-- Observable outcome of the install event. -/
structure InstallOutcome where
  installCompleted : Bool
  staticTierEntries : List String
  skipWaitingRequested : Bool
  deriving DecidableEq

/-- The install event listener: `waitUntil` of
`open(STATIC_CACHE).then(addAll).then(skipWaiting).catch(log)`.  The final
`catch` swallows any rejection, so the promise given to `waitUntil` always
resolves and the install completes either way; `skipWaiting` runs only on
the success path. -/
def installEvent (fetchOk : String → Bool) : InstallOutcome :=
  match cacheAddAll fetchOk STATIC_ASSETS with
  | .ok assets => ⟨true, assets, true⟩
  | .error _ => ⟨true, [], false⟩

/-! ### Activate -/

/-- Deletion test from the activate listener: a cache name is deleted when it
differs from all three registry names. -/
def shouldDelete (cacheName : String) : Bool :=
  cacheName ≠ STATIC_CACHE && cacheName ≠ API_CACHE && cacheName ≠ DYNAMIC_CACHE

/-- The current tier registry. -/
def TIER_REGISTRY : List String := [STATIC_CACHE, API_CACHE, DYNAMIC_CACHE]

/-- `caches.delete(name)` on the set of physically present names. -/
def deleteTier (present : List String) (n : String) : List String :=
  present.filter (fun m => m ≠ n)

/-- Observable outcome of the activate event. -/
structure ActivateOutcome where
  remaining : List String
  claimed : Bool
  deriving DecidableEq

/-- The activate event listener: enumerate `caches.keys()`, delete every
name for which `shouldDelete` holds, then `clients.claim()`. -/
def activateEvent (present : List String) : ActivateOutcome :=
  let afterDeletes :=
    present.foldl
      (fun st n => if shouldDelete n then deleteTier st n else st) present
  ⟨afterDeletes, true⟩

/-! ### Background sync -/

/-- A deferred action from the durable queue. -/
structure Action where
  id : Nat
  url : String
  method : String
  body : String
  deriving Repr, DecidableEq

/-- `syncAction`: replay the recorded request of the action; `net a = none` models the
fetch throwing, `some r` resolving with `r`.  A non-2xx response makes the
function throw `Sync failed: <status>`. -/
def syncAction (net : Action → Option Response) (a : Action) :
    Except String Response :=
  match net a with
  | none => .error "fetch rejected"
  | some r => if r.ok then .ok r else .error ("Sync failed: " ++ toString r.status)

/-- Observable outcome of one background-sync run. -/
structure SyncOutcome where
  attempted : List Nat
  removed : List Nat
  queue : List Action
  deriving Repr, DecidableEq

/-- `doBackgroundSync` over a retrieved batch: for each action in order, try
`syncAction` then `removePendingAction`; the surrounding `catch` logs a
failure and the loop continues with the next action. -/
def doBackgroundSync (net : Action → Option Response) :
    List Action → SyncOutcome
  | [] => ⟨[], [], []⟩
  | a :: rest =>
    let tail := doBackgroundSync net rest
    match syncAction net a with
    | .ok _ => ⟨a.id :: tail.attempted, a.id :: tail.removed, tail.queue⟩
    | .error _ => ⟨a.id :: tail.attempted, tail.removed, a :: tail.queue⟩

/-- Does the replay of one action observably succeed (fetch resolves with a
2xx response)? -/
def replaySucceeds (net : Action → Option Response) (a : Action) : Bool :=
  match syncAction net a with
  | .ok _ => true
  | .error _ => false

end SW

namespace DataProcessor

/-! ### Portfolio valuation (src/workers/dataProcessor.js)

Numbers are embedded as rationals.  JavaScript `a || b || 0` short-circuits
on falsy values (`undefined` and `0`), modelled by `jsOr`. -/

/-- JavaScript truthiness of a possibly-undefined number (`0` is falsy). -/
def jsTruthy : Option ℚ → Bool
  | some v => v ≠ 0
  | none => false

/-- JavaScript `a || b || 0` on possibly-undefined numbers. -/
def jsOr (a b : Option ℚ) : ℚ :=
  if jsTruthy a then a.getD 0 else if jsTruthy b then b.getD 0 else 0

/-- A holding as supplied in the request data; `currentPrice` may be absent. -/
structure Holding where
  symbol : String
  quantity : ℚ
  averagePrice : ℚ
  currentPrice : Option ℚ := none
  deriving Repr, DecidableEq

/-- A holding enriched by the map step of `calculatePortfolioValue`. -/
structure ProcessedHolding where
  symbol : String
  quantity : ℚ
  averagePrice : ℚ
  currentPrice : ℚ
  currentValue : ℚ
  costBasis : ℚ
  gainLoss : ℚ
  gainLossPercent : ℚ
  deriving Repr, DecidableEq

/-- The `summary` object of the portfolio result. -/
structure PortfolioSummary where
  totalValue : ℚ
  totalCost : ℚ
  totalGainLoss : ℚ
  totalGainLossPercent : ℚ
  totalReturn : ℚ
  deriving Repr, DecidableEq

/-- The value returned by `calculatePortfolioValue`. -/
structure PortfolioResult where
  holdings : List ProcessedHolding
  summary : PortfolioSummary
  deriving Repr, DecidableEq

/-- The body of the `holdings.map` callback. -/
def processHolding (currentPrices : String → Option ℚ) (h : Holding) :
    ProcessedHolding :=
  let currentPrice := jsOr (currentPrices h.symbol) h.currentPrice
  let currentValue := currentPrice * h.quantity
  let costBasis := h.averagePrice * h.quantity
  let gainLoss := currentValue - costBasis
  let gainLossPercent := if costBasis > 0 then gainLoss / costBasis * 100 else 0
  ⟨h.symbol, h.quantity, h.averagePrice, currentPrice, currentValue, costBasis,
   gainLoss, gainLossPercent⟩

/-- `calculatePortfolioValue`: map each holding, accumulate the totals, and
derive the percentage figures. -/
def calculatePortfolioValue (holdings : List Holding)
    (currentPrices : String → Option ℚ) (initialInvestment : Option ℚ) :
    PortfolioResult :=
  let processed := holdings.map (processHolding currentPrices)
  let totalValue := (processed.map (·.currentValue)).sum
  let totalCost := (processed.map (·.costBasis)).sum
  let totalGainLoss := (processed.map (·.gainLoss)).sum
  let totalGainLossPercent :=
    if totalCost > 0 then totalGainLoss / totalCost * 100 else 0
  let totalReturn :=
    match initialInvestment with
    | some inv => if inv > 0 then (totalValue - inv) / inv * 100 else 0
    | none => 0
  ⟨processed, ⟨totalValue, totalCost, totalGainLoss, totalGainLossPercent,
    totalReturn⟩⟩

/-! ### Worker message dispatcher -/

/-- A thrown JavaScript error as serialized into the ERROR response. -/
structure JsError where
  message : String
  stack : String := ""
  deriving Repr, DecidableEq

/-- Request payload.  Portfolio requests carry structured holdings data (the
price map as an association list); payloads for the six other calculators
are kept as uninterpreted strings, since only the dispatcher is under
verification here. -/
inductive WorkerData where
  | portfolioData (holdings : List Holding) (currentPrices : List (String × ℚ))
      (initialInvestment : Option ℚ)
  | rawData (payload : String)
  deriving DecidableEq

/-- A computed result: either a structured portfolio result or an
uninterpreted result from one of the other calculators. -/
inductive ResultVal where
  | portfolio (r : PortfolioResult)
  | raw (s : String)
  deriving DecidableEq

/-- A request posted to the worker: `{type, data, id}`. -/
structure WorkerRequest where
  rtype : String
  id : Nat
  data : WorkerData
  deriving DecidableEq

/-- The single message the worker posts back. -/
inductive WorkerResponse where
  | success (id : Nat) (result : ResultVal)
  | error (id : Nat) (e : JsError)
  deriving DecidableEq

/-- The `id` carried by a response. -/
def WorkerResponse.respId : WorkerResponse → Nat
  | .success i _ => i
  | .error i _ => i

/-- The six calculators other than `calculatePortfolioValue`, supplied as
collaborator functions (a throw is an `Except.error`). -/
structure Collaborators where
  processMarketData : WorkerData → Except JsError String
  calculatePerformanceMetrics : WorkerData → Except JsError String
  processChartData : WorkerData → Except JsError String
  analyzeStockTrends : WorkerData → Except JsError String
  calculateRiskMetrics : WorkerData → Except JsError String
  processWatchlistAnalysis : WorkerData → Except JsError String

/-- The seven known request types, in switch order. -/
def KNOWN_TYPES : List String :=
  ["CALCULATE_PORTFOLIO_VALUE", "PROCESS_MARKET_DATA",
   "CALCULATE_PERFORMANCE_METRICS", "PROCESS_CHART_DATA",
   "ANALYZE_STOCK_TRENDS", "CALCULATE_RISK_METRICS",
   "PROCESS_WATCHLIST_ANALYSIS"]

/-- Run `calculatePortfolioValue` on the request data; destructuring a
payload of the wrong shape throws. -/
def runPortfolio (d : WorkerData) : Except JsError ResultVal :=
  match d with
  | .portfolioData hs prices init =>
    .ok (.portfolio (calculatePortfolioValue hs
      (fun s => (prices.find? (fun p => p.1 = s)).map Prod.snd) init))
  | .rawData _ => .error ⟨"TypeError: holdings is not iterable", ""⟩

/-- The switch statement of the message listener. -/
def dispatch (c : Collaborators) (req : WorkerRequest) :
    Except JsError ResultVal :=
  if req.rtype = "CALCULATE_PORTFOLIO_VALUE" then runPortfolio req.data
  else if req.rtype = "PROCESS_MARKET_DATA" then
    (c.processMarketData req.data).map .raw
  else if req.rtype = "CALCULATE_PERFORMANCE_METRICS" then
    (c.calculatePerformanceMetrics req.data).map .raw
  else if req.rtype = "PROCESS_CHART_DATA" then
    (c.processChartData req.data).map .raw
  else if req.rtype = "ANALYZE_STOCK_TRENDS" then
    (c.analyzeStockTrends req.data).map .raw
  else if req.rtype = "CALCULATE_RISK_METRICS" then
    (c.calculateRiskMetrics req.data).map .raw
  else if req.rtype = "PROCESS_WATCHLIST_ANALYSIS" then
    (c.processWatchlistAnalysis req.data).map .raw
  else .error ⟨"Unknown message type: " ++ req.rtype, ""⟩

/-- The message event listener: run the switch inside `try`, post SUCCESS
with the result, or post ERROR with the caught error.  It returns exactly
one response. -/
def handleMessage (c : Collaborators) (req : WorkerRequest) : WorkerResponse :=
  match dispatch c req with
  | .ok r => .success req.id r
  | .error e => .error req.id e

end DataProcessor

/-! ### Concrete fixtures used by witnesses and counterexamples -/

namespace SW

/-- A fetch oracle that fails exactly on the manifest entry `/index.html`. -/
def badFetch : String → Bool := fun u => u != "/index.html"

/-- A plain 200 response. -/
def ok200 : Response := { status := 200, body := "data" }

/-- A 404 response (resolves, not ok). -/
def notFound404 : Response := { status := 404, body := "nope" }

/-- A 500 response (resolves, not ok). -/
def failed500 : Response := { status := 500 }

/-- A GET request for a critical API path. -/
def criticalReq : Request := { method := "GET", pathname := "/api/stocks/market-status" }

/-- A GET request for a static asset. -/
def assetReq : Request := { method := "GET", pathname := "/static/js/bundle.js" }

/-- A GET request for an HTML page. -/
def pageReq : Request :=
  { method := "GET", pathname := "/dashboard", accept := some "text/html,*/*" }

/-- The three-action batch from the replay example of the spec. -/
def batch3 : List Action :=
  [⟨1, "/api/orders", "POST", "o1"⟩, ⟨2, "/api/orders", "POST", "o2"⟩,
   ⟨3, "/api/orders", "POST", "o3"⟩]

/-- A replay network where action 2 fails with a 500 and the others succeed. -/
def batch3Net : Action → Option Response :=
  fun a => if a.id = 2 then some failed500 else some ok200

end SW

namespace DataProcessor

/-- Collaborator functions that always return an empty result, used to
instantiate the dispatcher at concrete inputs. -/
def trivialCollaborators : Collaborators :=
  ⟨fun _ => .ok "", fun _ => .ok "", fun _ => .ok "", fun _ => .ok "",
   fun _ => .ok "", fun _ => .ok ""⟩

/-- The holding from the worked example of the spec. -/
def exampleHolding : Holding :=
  { symbol := "X", quantity := 10, averagePrice := 5, currentPrice := some 7 }

/-- The portfolio request from the worked example of the spec. -/
def exampleRequest : WorkerRequest :=
  { rtype := "CALCULATE_PORTFOLIO_VALUE", id := 42
    data := .portfolioData [exampleHolding] [] none }

end DataProcessor

/-! ## Shared lemmas -/

namespace SW

/-- Storing a snapshot makes it the one returned for that identity
(overwrite semantics of `cache.put`). -/
theorem tierGet_tierPut_self (t : Tier) (k : String) (r : Response) :
    tierGet (tierPut t k r) k = some r := by
  simp [tierGet, tierPut]

/-- A cache name survives the activate deletion test exactly when it is in
the tier registry. -/
theorem shouldDelete_eq_not_mem (m : String) :
    shouldDelete m = !TIER_REGISTRY.contains m := by
  simp [shouldDelete, TIER_REGISTRY, List.contains]
  by_cases h1 : m = STATIC_CACHE <;> by_cases h2 : m = API_CACHE <;>
    by_cases h3 : m = DYNAMIC_CACHE <;> simp [h1, h2, h3]

/-- Folding the conditional deletions over a name list removes from the
state exactly the deletable names occurring in the list. -/
theorem foldl_deleteTier (l : List String) (st : List String) :
    l.foldl (fun st n => if shouldDelete n then deleteTier st n else st) st
      = st.filter (fun m => !(shouldDelete m && l.contains m)) := by
  induction l generalizing st with
  | nil => simp
  | cons n rest ih =>
    simp only [List.foldl_cons]
    by_cases hn : shouldDelete n
    · rw [if_pos hn, ih, deleteTier, List.filter_filter]
      apply List.filter_congr
      intro m _
      by_cases hmn : m = n
      · subst hmn; simp [hn]
      · simp [hmn]
    · rw [if_neg hn, ih]
      apply List.filter_congr
      intro m _
      by_cases hmn : m = n
      · subst hmn; simp [Bool.eq_false_iff.mpr hn]
      · simp [hmn]

end SW

/-! ## Claim theorems -/

namespace SW

/-- C1 counterexample: a fetch oracle that fails on the manifest entry
`/index.html` still leaves the install event completing successfully (the
trailing `catch` swallows the `addAll` rejection), contradicting the claim
that failure of any manifest entry fails the entire install. -/
theorem install_completes_despite_failed_fetch :
    badFetch "/index.html" = false ∧
    "/index.html" ∈ STATIC_ASSETS ∧
    (installEvent badFetch).installCompleted = true := by
  decide

/-- C1 (amended): when fetching any manifest entry fails, the static tier is
left empty (`addAll` is all-or-nothing, so the tier is never partially
populated) and skip-waiting is not requested, but the install event itself
still completes because the rejection is caught and only logged; when every
fetch succeeds the tier holds exactly the manifest. -/
theorem installEvent_spec (fetchOk : String → Bool) :
    (installEvent fetchOk).installCompleted = true ∧
    ((installEvent fetchOk).staticTierEntries = STATIC_ASSETS ∨
      (installEvent fetchOk).staticTierEntries = []) ∧
    ((∃ u ∈ STATIC_ASSETS, fetchOk u = false) →
      (installEvent fetchOk).staticTierEntries = [] ∧
      (installEvent fetchOk).skipWaitingRequested = false) ∧
    (STATIC_ASSETS.all fetchOk = true →
      (installEvent fetchOk).staticTierEntries = STATIC_ASSETS ∧
      (installEvent fetchOk).skipWaitingRequested = true) := by
  by_cases h : STATIC_ASSETS.all fetchOk = true
  · have he : installEvent fetchOk = ⟨true, STATIC_ASSETS, true⟩ := by
      simp [installEvent, cacheAddAll, h]
    rw [he]
    refine ⟨rfl, Or.inl rfl, ?_, fun _ => ⟨rfl, rfl⟩⟩
    rintro ⟨u, hu, hfail⟩
    have hall := List.all_eq_true.mp h u hu
    rw [hfail] at hall
    exact absurd hall (by decide)
  · have he : installEvent fetchOk = ⟨true, [], false⟩ := by
      simp only [installEvent, cacheAddAll, if_neg h]
    rw [he]
    exact ⟨rfl, Or.inr rfl, fun _ => ⟨rfl, rfl⟩, fun hall => absurd hall h⟩

/-- C1 witness: applying the amended install theorem to the failing fetch
oracle shows the empty tier and the absent skip-waiting request. -/
theorem installEvent_spec_witness :
    (installEvent badFetch).staticTierEntries = [] ∧
    (installEvent badFetch).skipWaitingRequested = false :=
  (installEvent_spec badFetch).2.2.1 ⟨"/index.html", by decide, by decide⟩

/-- C3 counterexample: with only the stale tier `legacy-v0` physically
present, activation leaves nothing present, so it does not leave "exactly
the registry tiers present" — registry tiers that were absent are not
created. -/
theorem activate_does_not_create_registry_tiers :
    (activateEvent ["legacy-v0"]).remaining = [] ∧
    "static-v1" ∈ TIER_REGISTRY ∧
    "static-v1" ∉ (activateEvent ["legacy-v0"]).remaining := by
  decide

/-- C3 (amended): activation deletes exactly the physically present tier
names outside the registry and preserves exactly those inside it, leaving
present precisely the present names that are registry members (absent
registry tiers are not created); afterwards it claims all open clients. -/
theorem activateEvent_spec (present : List String) :
    (activateEvent present).remaining
      = present.filter (fun n => TIER_REGISTRY.contains n) ∧
    (∀ n, n ∈ (activateEvent present).remaining ↔
      n ∈ present ∧ n ∈ TIER_REGISTRY) ∧
    (activateEvent present).claimed = true := by
  have hrem : (activateEvent present).remaining
      = present.filter (fun n => TIER_REGISTRY.contains n) := by
    show present.foldl
        (fun st n => if shouldDelete n then deleteTier st n else st) present
      = present.filter (fun n => TIER_REGISTRY.contains n)
    rw [foldl_deleteTier]
    apply List.filter_congr
    intro m hm
    have hc : present.contains m = true := List.elem_iff.mpr hm
    rw [shouldDelete_eq_not_mem, hc]
    simp
  refine ⟨hrem, ?_, rfl⟩
  intro n
  rw [hrem]
  simp [List.mem_filter]

/-- C3 witness: activation on the example state of the spec deletes `legacy-v0`
and keeps the three registry tiers. -/
theorem activateEvent_spec_witness :
    (activateEvent ["static-v1", "api-v1", "dynamic-v1", "legacy-v0"]).remaining
      = ["static-v1", "api-v1", "dynamic-v1"] := by
  rw [(activateEvent_spec ["static-v1", "api-v1", "dynamic-v1", "legacy-v0"]).1]
  decide

/-- C9: the GET request for `/dashboard` with no accept header is neither a
static asset nor an API request, and classification throws a `TypeError`
(from `.includes` on the `null` accept header) instead of reaching the
default network-first branch, so the classifier is not total over GET
requests. -/
theorem classifier_throws_on_missing_accept :
    isStaticAsset { method := "GET", pathname := "/dashboard" } = false ∧
    isAPIRequest { method := "GET", pathname := "/dashboard" } = false ∧
    onFetch { method := "GET", pathname := "/dashboard" }
      = .classifierThrew "TypeError: cannot read includes of null" ∧
    onFetch { method := "GET", pathname := "/dashboard" }
      ≠ .respond .networkFirstS := by
  decide

/-- C2: network-first stores a 2xx network response into the API tier
(overwriting any prior snapshot for that identity) and returns it; when the
fetch throws, a cached snapshot is returned untouched if one exists; with
no snapshot, a critical-API path gets the synthesized 503 with the
structured offline JSON body, and any other path gets the generic 503. -/
theorem networkFirst_spec (net : Option Response) (req : Request)
    (cs : CacheStore) :
    (∀ r, net = some r → r.ok = true →
      (networkFirst net req cs).response = r ∧
      tierGet (networkFirst net req cs).caches.apiTier (reqKey req) = some r) ∧
    (net = none → ∀ c, cachesMatch cs (reqKey req) = some c →
      networkFirst net req cs = ⟨c, cs, 1⟩) ∧
    (net = none → cachesMatch cs (reqKey req) = none →
      isCriticalAPI req = true →
      networkFirst net req cs = ⟨offlineJsonResponse, cs, 1⟩) ∧
    (net = none → cachesMatch cs (reqKey req) = none →
      isCriticalAPI req = false →
      networkFirst net req cs = ⟨genericOfflineResponse, cs, 1⟩) ∧
    offlineJsonResponse.status = 503 ∧
    offlineJsonResponse.body =
      "\x7b\"success\":false,\"message\":\"Offline - Data not available\",\"offline\":true\x7d" ∧
    genericOfflineResponse.status = 503 := by
  refine ⟨?_, ?_, ?_, ?_, rfl, rfl, rfl⟩
  · rintro r rfl hok
    simp [networkFirst, hok, tierGet_tierPut_self]
  · rintro rfl c hc
    simp [networkFirst, hc]
  · rintro rfl hc hcrit
    simp [networkFirst, hc, hcrit]
  · rintro rfl hc hcrit
    simp [networkFirst, hc, hcrit]

/-- C2 witness: a critical-API request whose fetch throws, with empty
caches, yields the structured offline 503. -/
theorem networkFirst_spec_witness :
    networkFirst none criticalReq emptyCaches
      = ⟨offlineJsonResponse, emptyCaches, 1⟩ :=
  (networkFirst_spec none criticalReq emptyCaches).2.2.1 rfl (by decide)
    (by decide)

/-- C10: when the network-first fetch resolves with a non-2xx response, that
response is returned unchanged with the cache store untouched (so nothing
is stored, no snapshot is consulted, and no synthesized 503 is produced);
the result does not depend on the cache contents at all. -/
theorem networkFirst_non2xx (r : Response) (req : Request)
    (cs cs' : CacheStore) (h : r.ok = false) :
    networkFirst (some r) req cs = ⟨r, cs, 1⟩ ∧
    (networkFirst (some r) req cs).response
      = (networkFirst (some r) req cs').response := by
  constructor <;> simp [networkFirst, h]

/-- C10 witness: a 404 response from the network is passed through with the
caches untouched. -/
theorem networkFirst_non2xx_witness :
    networkFirst (some notFound404) criticalReq emptyCaches
      = ⟨notFound404, emptyCaches, 1⟩ :=
  (networkFirst_non2xx notFound404 criticalReq emptyCaches emptyCaches
    (by decide)).1

/-- C7: cache-first returns an existing snapshot with no network fetch and
no cache mutation; with no snapshot it performs exactly one fetch, stores a
2xx response into the static tier before returning it, and turns a thrown
fetch into the generic 503 instead of propagating the error. -/
theorem cacheFirst_spec (net : Option Response) (req : Request)
    (cs : CacheStore) :
    (∀ c, cachesMatch cs (reqKey req) = some c →
      cacheFirst net req cs = ⟨c, cs, 0⟩) ∧
    (cachesMatch cs (reqKey req) = none →
      (cacheFirst net req cs).fetchCount = 1 ∧
      (∀ r, net = some r → r.ok = true →
        (cacheFirst net req cs).response = r ∧
        tierGet (cacheFirst net req cs).caches.staticTier (reqKey req)
          = some r) ∧
      (net = none →
        cacheFirst net req cs = ⟨genericOfflineResponse, cs, 1⟩ ∧
        genericOfflineResponse.status = 503)) := by
  constructor
  · intro c hc
    simp [cacheFirst, hc]
  · intro hc
    refine ⟨?_, ?_, ?_⟩
    · cases net with
      | none => simp [cacheFirst, hc]
      | some r => by_cases hok : r.ok <;> simp [cacheFirst, hc, hok]
    · rintro r rfl hok
      simp [cacheFirst, hc, hok, tierGet_tierPut_self]
    · rintro rfl
      exact ⟨by simp [cacheFirst, hc], rfl⟩

/-- C7 witness: with a cached bundle snapshot present, cache-first serves it
with zero network fetches and an unchanged store. -/
theorem cacheFirst_spec_witness :
    cacheFirst none assetReq
        ⟨[("/static/js/bundle.js", ok200)], [], []⟩
      = ⟨ok200, ⟨[("/static/js/bundle.js", ok200)], [], []⟩, 0⟩ :=
  (cacheFirst_spec none assetReq
    ⟨[("/static/js/bundle.js", ok200)], [], []⟩).1 ok200 (by decide)

/-- C8: stale-while-revalidate returns an existing dynamic-tier snapshot no
matter how the concurrent fetch turns out (the caller does not await it);
the tier is updated exactly when the fetch yields a 2xx response; with no
snapshot the caller receives the eventual network result, which is
`undefined` (`none`) when the fetch throws. -/
theorem staleWhileRevalidate_spec (net : Option Response) (req : Request)
    (cs : CacheStore) :
    (∀ c, tierGet cs.dynamicTier (reqKey req) = some c →
      (staleWhileRevalidate net req cs).response = some c) ∧
    (∀ r, net = some r → r.ok = true →
      tierGet (staleWhileRevalidate net req cs).caches.dynamicTier
        (reqKey req) = some r) ∧
    (∀ r, net = some r → r.ok = false →
      (staleWhileRevalidate net req cs).caches = cs) ∧
    (net = none → (staleWhileRevalidate net req cs).caches = cs) ∧
    (tierGet cs.dynamicTier (reqKey req) = none →
      (∀ r, net = some r →
        (staleWhileRevalidate net req cs).response = some r) ∧
      (net = none → (staleWhileRevalidate net req cs).response = none)) := by
  refine ⟨?_, ?_, ?_, ?_, ?_⟩
  · intro c hc
    cases net with
    | none => simp [staleWhileRevalidate, hc]
    | some r => by_cases hok : r.ok <;> simp [staleWhileRevalidate, hc, hok]
  · rintro r rfl hok
    simp [staleWhileRevalidate, hok, tierGet_tierPut_self]
  · rintro r rfl hok
    simp [staleWhileRevalidate, hok]
  · rintro rfl
    simp [staleWhileRevalidate]
  · intro hc
    constructor
    · rintro r rfl
      by_cases hok : r.ok <;> simp [staleWhileRevalidate, hc, hok]
    · rintro rfl
      simp [staleWhileRevalidate, hc]

/-- C8 witness: with a cached dashboard page and a fetch that throws, the
caller still receives the cached response and the store is unchanged. -/
theorem staleWhileRevalidate_spec_witness :
    (staleWhileRevalidate none pageReq
      ⟨[], [], [("/dashboard", ok200)]⟩).response = some ok200 :=
  (staleWhileRevalidate_spec none pageReq
    ⟨[], [], [("/dashboard", ok200)]⟩).1 ok200 (by decide)

/-- C4: the replayer attempts every action of the batch in retrieval order
(a failure never stops the loop), removes from the queue exactly the
actions whose replay observably succeeds with a 2xx response, and leaves
exactly the failed ones queued. -/
theorem doBackgroundSync_spec (net : Action → Option Response)
    (actions : List Action) :
    (doBackgroundSync net actions).attempted = actions.map (·.id) ∧
    (doBackgroundSync net actions).removed
      = (actions.filter (replaySucceeds net)).map (·.id) ∧
    (doBackgroundSync net actions).queue
      = actions.filter (fun a => !replaySucceeds net a) := by
  induction actions with
  | nil => exact ⟨rfl, rfl, rfl⟩
  | cons a rest ih =>
    obtain ⟨ih1, ih2, ih3⟩ := ih
    cases hs : syncAction net a with
    | ok r =>
      simp [doBackgroundSync, hs, replaySucceeds, ih1, ih2, ih3]
    | error e =>
      simp [doBackgroundSync, hs, replaySucceeds, ih1, ih2, ih3]

/-- C4 witness: in the three-action example of the spec where action 2 fails with
a 500, all three actions are attempted in order, actions 1 and 3 are
removed, and action 2 alone stays queued. -/
theorem doBackgroundSync_spec_witness :
    (doBackgroundSync batch3Net batch3).attempted = [1, 2, 3] ∧
    (doBackgroundSync batch3Net batch3).removed = [1, 3] ∧
    (doBackgroundSync batch3Net batch3).queue
      = [⟨2, "/api/orders", "POST", "o2"⟩] := by
  obtain ⟨h1, h2, h3⟩ := doBackgroundSync_spec batch3Net batch3
  rw [h1, h2, h3]
  decide

end SW

namespace DataProcessor

/-- C6: the message handler of the worker posts exactly one response (it is a
total function into single responses), the response carries the `id` of the request, it is either SUCCESS or ERROR, and a request whose type is none of
the seven known values yields the `Unknown message type` ERROR rather than
being dropped. -/
theorem handleMessage_spec (c : Collaborators) (req : WorkerRequest) :
    (handleMessage c req).respId = req.id ∧
    ((∃ r, handleMessage c req = .success req.id r) ∨
      (∃ e, handleMessage c req = .error req.id e)) ∧
    (req.rtype ∉ KNOWN_TYPES →
      handleMessage c req
        = .error req.id ⟨"Unknown message type: " ++ req.rtype, ""⟩) := by
  refine ⟨?_, ?_, ?_⟩
  · cases h : dispatch c req <;>
      simp [handleMessage, h, WorkerResponse.respId]
  · cases h : dispatch c req with
    | ok r => exact Or.inl ⟨r, by simp [handleMessage, h]⟩
    | error e => exact Or.inr ⟨e, by simp [handleMessage, h]⟩
  · intro hk
    simp only [KNOWN_TYPES, List.mem_cons, List.not_mem_nil, or_false,
      not_or] at hk
    obtain ⟨h1, h2, h3, h4, h5, h6, h7⟩ := hk
    simp [handleMessage, dispatch, h1, h2, h3, h4, h5, h6, h7]

/-- C6 witness: a request of unknown type `BOGUS` receives the structured
ERROR response carrying its id. -/
theorem handleMessage_spec_witness :
    handleMessage trivialCollaborators ⟨"BOGUS", 7, .rawData ""⟩
      = .error 7 ⟨"Unknown message type: BOGUS", ""⟩ :=
  (handleMessage_spec trivialCollaborators ⟨"BOGUS", 7, .rawData ""⟩).2.2
    (by decide)

/-- C5: the worked portfolio example — one holding of symbol X, quantity 10,
average price 5, current price 7 — yields a SUCCESS response with the id of the request, whose summary has totalValue 70, totalCost 50, totalGainLoss
20 and totalGainLossPercent 40. -/
theorem portfolio_example_spec (c : Collaborators) :
    ∃ pr : PortfolioResult,
      handleMessage c exampleRequest = .success 42 (.portfolio pr) ∧
      pr.summary.totalValue = 70 ∧ pr.summary.totalCost = 50 ∧
      pr.summary.totalGainLoss = 20 ∧ pr.summary.totalGainLossPercent = 40 := by
  refine ⟨calculatePortfolioValue [exampleHolding]
      (fun s => ((([] : List (String × ℚ)).find?
        (fun p => p.1 = s)).map Prod.snd)) none, ?_, ?_, ?_, ?_, ?_⟩
  · simp [handleMessage, dispatch, runPortfolio, exampleRequest]
  all_goals
    norm_num [calculatePortfolioValue, processHolding, jsOr, jsTruthy,
      exampleHolding]

end DataProcessor
